import Mathlib

/-!
Shallow embedding of the task-management API in `src/backend/server.py`
(FastAPI + MongoDB). Persistent state is modelled as two in-memory lists
(`users`, `tasks`) mirroring the two Mongo collections; `find_one` becomes
`List.find?` (first match), `insert_one` appends, `update_one`/`$set`
replaces the first matching document. Timestamps are seconds as `Nat`;
freshly generated ids (`uuid4`) and the current time (`datetime.utcnow`)
are passed in as explicit parameters. HTTP errors are the status codes the
code raises (`HTTPException(status_code=...)`), carried in `Except Nat`.
-/

namespace TaskApp

/-- Mirrors the `User` pydantic model (server.py lines 62-70). -/
structure User where
  id : String
  username : String
  email : String
  full_name : String
  role : String
  hashed_password : String
  is_active : Bool
  created_at : Nat
deriving DecidableEq, Repr

/-- Mirrors the `Task` pydantic model (server.py lines 95-104). -/
structure Task where
  id : String
  title : String
  description : String
  assigned_to : String
  assigned_by : String
  status : String
  deadline : Nat
  created_at : Nat
  updated_at : Nat
deriving DecidableEq, Repr

/-- Mirrors `TaskUpdate` (server.py lines 112-117): all fields optional,
`None` meaning absent from the payload. -/
structure TaskUpdate where
  title : Option String
  description : Option String
  assigned_to : Option String
  status : Option String
  deadline : Option Nat
deriving DecidableEq, Repr

/-- Mirrors `UserCreate` (server.py lines 72-77); `role` defaults to
"user" in pydantic but is caller-suppliable. -/
structure UserCreate where
  username : String
  email : String
  full_name : String
  password : String
  role : String
deriving DecidableEq, Repr

/-- The two Mongo collections (`db.users`, `db.tasks`). -/
structure DB where
  users : List User
  tasks : List Task
deriving DecidableEq, Repr

/-- Modelled from the spec: the Credential Store (passlib bcrypt is an
external collaborator, §4.1): a non-reversible deterministic hash. We model
it as an injective tagging function, enough for `verify` to succeed exactly
on the hashed password. -/
def get_password_hash (password : String) : String :=
  "bcrypt$" ++ password

/-- Modelled from the spec: `pwd_context.verify` (server.py line 143):
true exactly when `hashed_password` is the hash of `plain_password`. -/
def verify_password (plain_password hashed_password : String) : Bool :=
  get_password_hash plain_password == hashed_password

/-- SECRET_KEY constant (server.py line 48). -/
def SECRET_KEY : String := "your-secret-key-change-in-production"

/-- ACCESS_TOKEN_EXPIRE_MINUTES constant (server.py line 50). -/
def ACCESS_TOKEN_EXPIRE_MINUTES : Nat := 30

/-- The claims layer of a JWT as used here: an optional "sub" and the
absolute "exp" timestamp (seconds). -/
structure TokenPayload where
  sub : Option String
  exp : Nat
deriving DecidableEq, Repr

/-- Modelled from the spec: a signed token (PyJWT is an external
collaborator, §4.2): payload plus the signing key, tamper-evidence
modelled by `jwt_decode` checking the key. -/
structure JWT where
  payload : TokenPayload
  key : String
deriving DecidableEq, Repr

/-- Models `jwt.encode(to_encode, SECRET_KEY, ...)`. -/
def jwt_encode (payload : TokenPayload) (key : String) : JWT :=
  { payload := payload, key := key }

/-- Models `jwt.decode(token, SECRET_KEY, ...)`: fails (PyJWTError) on a
wrong key or an expired "exp". -/
def jwt_decode (tok : JWT) (key : String) (now : Nat) : Option TokenPayload :=
  if tok.key == key && decide (now < tok.payload.exp) then some tok.payload else none

/-- `create_access_token` (server.py lines 148-156): expiry is
`now + expires_delta` when given, else `now + 15 minutes`. The payload
data at every call site is `{"sub": user_id}`. -/
def create_access_token (sub : String) (expires_delta : Option Nat) (now : Nat) : JWT :=
  let expire : Nat :=
    match expires_delta with
    | some d => now + d
    | none => now + 15 * 60
  jwt_encode { sub := some sub, exp := expire } SECRET_KEY

/-- `get_current_user` (server.py lines 158-171): decode the token (401 on
failure), 401 when "sub" is missing, look the subject up in `db.users`
(401 when absent). Note: `is_active` is never consulted here. -/
def get_current_user (db : DB) (tok : JWT) (now : Nat) : Except Nat User :=
  match jwt_decode tok SECRET_KEY now with
  | none => .error 401
  | some payload =>
    match payload.sub with
    | none => .error 401
    | some user_id =>
      match db.users.find? (fun u => u.id == user_id) with
      | none => .error 401
      | some user => .ok user

/-- Builds the `User` document `register`/`create_user` insert: password
popped and replaced by its hash, pydantic defaults `is_active = True`,
fresh id and timestamp. -/
def mkUser (user_data : UserCreate) (fresh_id : String) (now : Nat) : User :=
  { id := fresh_id
    username := user_data.username
    email := user_data.email
    full_name := user_data.full_name
    role := user_data.role
    hashed_password := get_password_hash user_data.password
    is_active := true
    created_at := now }

/-- `register` (server.py lines 179-197): 400 when username or email is
taken, else insert the new user (role taken from the payload, no caller
identity involved) and return it. -/
def register (db : DB) (user_data : UserCreate) (fresh_id : String) (now : Nat) :
    Except Nat (DB × User) :=
  match db.users.find? (fun u => u.username == user_data.username || u.email == user_data.email) with
  | some _ => .error 400
  | none =>
    let user := mkUser user_data fresh_id now
    .ok ({ db with users := db.users ++ [user] }, user)

/-- `login` (server.py lines 199-217): find by username; 401 when absent
or the password fails verification; 401 when inactive; else issue a token
with an explicit 30-minute expiry. -/
def login (db : DB) (username password : String) (now : Nat) :
    Except Nat (JWT × User) :=
  match db.users.find? (fun u => u.username == username) with
  | none => .error 401
  | some user =>
    if !(verify_password password user.hashed_password) then .error 401
    else if !user.is_active then .error 401
    else
      .ok (create_access_token user.id (some (ACCESS_TOKEN_EXPIRE_MINUTES * 60)) now, user)

/-- `get_tasks` (server.py lines 270-277): admin fetches every task,
others only those assigned to them; both through `to_list(1000)`.
The user-object enrichment of the response is orthogonal to the
role-scoping claims and omitted. -/
def get_tasks (db : DB) (current_user : User) : List Task :=
  if current_user.role == "admin" then
    db.tasks.take 1000
  else
    (db.tasks.filter (fun t => t.assigned_to == current_user.id)).take 1000

/-- The non-admin field filter (server.py lines 330-333): only "status"
survives; every other payload field is dropped. -/
def filterNonAdmin (task_data : TaskUpdate) : TaskUpdate :=
  { title := none, description := none, assigned_to := none
    status := task_data.status, deadline := none }

/-- Python truthiness of the `update_data` dict (server.py line 343):
nonempty iff some field survived the filtering. -/
def TaskUpdate.nonEmpty (td : TaskUpdate) : Bool :=
  td.title.isSome || td.description.isSome || td.assigned_to.isSome ||
  td.status.isSome || td.deadline.isSome

/-- `task.update(update_data)` plus the `$set` write (server.py lines
343-346): present fields overwrite, `updated_at` is stamped with now. -/
def applyUpdate (t : Task) (td : TaskUpdate) (now : Nat) : Task :=
  { t with
    title := td.title.getD t.title
    description := td.description.getD t.description
    assigned_to := td.assigned_to.getD t.assigned_to
    status := td.status.getD t.status
    deadline := td.deadline.getD t.deadline
    updated_at := now }

/-- Mongo `update_one({"id": tid}, {"$set": ...})`: replace the first
document matching the id. -/
def replaceTask : List Task → String → Task → List Task
  | [], _, _ => []
  | t :: ts, tid, t1 => if t.id == tid then t1 :: ts else t :: replaceTask ts tid t1

/-- The tail of `update_task` (server.py lines 343-346): write and stamp
`updated_at` only when the filtered payload is nonempty (Python
`if update_data:`); otherwise return the stored task untouched. -/
def applyIfNonEmpty (db : DB) (task_id : String) (task : Task)
    (update_data : TaskUpdate) (now : Nat) : DB × Except Nat Task :=
  if update_data.nonEmpty then
    let t1 := applyUpdate task update_data now
    ({ db with tasks := replaceTask db.tasks task_id t1 }, .ok t1)
  else
    (db, .ok task)

/-- `update_task` (server.py lines 319-359): 404 when the id is absent,
403 when a non-admin caller does not own the task, non-admins filtered to
"status" only, admins checked that a payload `assigned_to` resolves (404
otherwise), then the conditional write. Errors leave the store untouched,
exactly as the exceptions raised before the `update_one` call do. -/
def update_task (db : DB) (task_id : String) (task_data : TaskUpdate)
    (current_user : User) (now : Nat) : DB × Except Nat Task :=
  match db.tasks.find? (fun t => t.id == task_id) with
  | none => (db, .error 404)
  | some task =>
    if current_user.role ≠ "admin" ∧ task.assigned_to ≠ current_user.id then
      (db, .error 403)
    else if current_user.role ≠ "admin" then
      applyIfNonEmpty db task_id task (filterNonAdmin task_data) now
    else
      match task_data.assigned_to with
      | some uid =>
        if (db.users.find? (fun u => u.id == uid)).isSome then
          applyIfNonEmpty db task_id task task_data now
        else (db, .error 404)
      | none => applyIfNonEmpty db task_id task task_data now

/-- The seeded administrator document `create_admin_user` inserts
(server.py lines 404-410). -/
def seedAdmin (fresh_id : String) (now : Nat) : User :=
  { id := fresh_id
    username := "admin"
    email := "admin@taskmanager.com"
    full_name := "System Administrator"
    role := "admin"
    hashed_password := get_password_hash "admin123"
    is_active := true
    created_at := now }

/-- `create_admin_user` (server.py lines 401-412): insert the seeded admin
only when no user with role "admin" exists. -/
def create_admin_user (db : DB) (fresh_id : String) (now : Nat) : DB :=
  match db.users.find? (fun u => u.role == "admin") with
  | some _ => db
  | none => { db with users := db.users ++ [seedAdmin fresh_id now] }

/-- The effective payload after the role-based filtering in `update_task`:
admins keep everything, others only "status". -/
def effectiveUpdate (current_user : User) (task_data : TaskUpdate) : TaskUpdate :=
  if current_user.role == "admin" then task_data else filterNonAdmin task_data

/-! Concrete fixtures used by witnesses and counterexamples. -/

/-- Fixture: a regular user. -/
def alice : User :=
  { id := "u1", username := "alice", email := "alice@x.com", full_name := "Alice A"
    role := "user", hashed_password := get_password_hash "pw1", is_active := true
    created_at := 0 }

/-- Fixture: another regular user. -/
def bob : User :=
  { id := "u2", username := "bob", email := "bob@x.com", full_name := "Bob B"
    role := "user", hashed_password := get_password_hash "pw2", is_active := true
    created_at := 0 }

/-- Fixture: an administrator. -/
def adminUser : User :=
  { id := "a1", username := "root", email := "root@x.com", full_name := "Root R"
    role := "admin", hashed_password := get_password_hash "pw3", is_active := true
    created_at := 0 }

/-- Fixture: a deactivated user. -/
def carol : User :=
  { id := "u3", username := "carol", email := "carol@x.com", full_name := "Carol C"
    role := "user", hashed_password := get_password_hash "pw4", is_active := false
    created_at := 0 }

/-- Fixture: a task assigned to `alice`. -/
def taskA : Task :=
  { id := "t1", title := "Write report", description := "Q3 report"
    assigned_to := "u1", assigned_by := "a1", status := "pending"
    deadline := 1000, created_at := 0, updated_at := 0 }

/-- Fixture: a task assigned to `bob`. -/
def taskB : Task :=
  { id := "t2", title := "Fix build", description := "CI is red"
    assigned_to := "u2", assigned_by := "a1", status := "in_progress"
    deadline := 2000, created_at := 0, updated_at := 0 }

/-- Fixture database holding the four users and two tasks. -/
def db0 : DB := { users := [alice, bob, adminUser, carol], tasks := [taskA, taskB] }

/-- Fixture payload: new status plus a title that non-admins may not set. -/
def tdStatusTitle : TaskUpdate :=
  { title := some "x", description := none, assigned_to := none
    status := some "completed", deadline := none }

/-- Fixture payload: sets status to the value `taskA` already has. -/
def tdSameStatus : TaskUpdate :=
  { title := none, description := none, assigned_to := none
    status := some "pending", deadline := none }

/-- Fixture payload: empty update. -/
def tdEmpty : TaskUpdate :=
  { title := none, description := none, assigned_to := none
    status := none, deadline := none }

/-- Fixture database with no admin account. -/
def dbNoAdmin : DB := { users := [alice, bob, carol], tasks := [] }

/-- Fixture registration payload asking for role "admin". -/
def newAdminReq : UserCreate :=
  { username := "eve", email := "eve@x.com", full_name := "Eve E"
    password := "pw9", role := "admin" }

/-! Helper lemmas shared by several claims. -/

/-- After replacing the first document matching `tid` by a document with
the same id, looking the id up returns the replacement. -/
theorem find_replaceTask : ∀ (l : List Task) (tid : String) (t0 t1 : Task),
    l.find? (fun t => t.id == tid) = some t0 → t1.id = t0.id →
    (replaceTask l tid t1).find? (fun t => t.id == tid) = some t1 := by
  intro l tid t0 t1 h h1
  induction l with
  | nil => simp [List.find?] at h
  | cons a as ih =>
    cases hpa : (a.id == tid) with
    | true =>
      have ha : a = t0 := by
        rw [List.find?_cons_of_pos as hpa] at h
        exact Option.some.inj h
      have ht1 : (t1.id == tid) = true := by
        rw [h1, ← ha]; exact hpa
      simp only [replaceTask, hpa, if_true]
      exact List.find?_cons_of_pos as ht1
    | false =>
      rw [List.find?_cons_of_neg as (by simp [hpa])] at h
      simp only [replaceTask, hpa]
      rw [if_neg (by simp)]
      rw [List.find?_cons_of_neg _ (by simp [hpa])]
      exact ih h

/-- In the success branches, the returned task is the stored task and its
`updated_at` follows the nonemptiness of the filtered payload. -/
theorem applyIfNonEmpty_ok (db : DB) (tid : String) (task : Task)
    (ud : TaskUpdate) (now : Nat) (db2 : DB) (t2 : Task)
    (h : applyIfNonEmpty db tid task ud now = (db2, .ok t2)) :
    (ud.nonEmpty = true ∧ t2 = applyUpdate task ud now ∧
       db2 = { db with tasks := replaceTask db.tasks tid t2 }) ∨
    (ud.nonEmpty = false ∧ t2 = task ∧ db2 = db) := by
  unfold applyIfNonEmpty at h
  cases hne : ud.nonEmpty with
  | true =>
    left
    rw [hne, if_pos rfl, Prod.mk.injEq] at h
    obtain ⟨hdb, hok⟩ := h
    have ht := Except.ok.inj hok
    subst ht
    exact ⟨rfl, rfl, hdb.symm⟩
  | false =>
    right
    rw [hne, if_neg (by simp), Prod.mk.injEq] at h
    obtain ⟨hdb, hok⟩ := h
    have ht := Except.ok.inj hok
    subst ht
    exact ⟨rfl, rfl, hdb.symm⟩

/-- The non-admin filter keeps a field exactly when the payload carried a
status. -/
theorem filterNonAdmin_nonEmpty (td : TaskUpdate) :
    (filterNonAdmin td).nonEmpty = td.status.isSome := by
  simp [filterNonAdmin, TaskUpdate.nonEmpty]

/-- C1: an authenticated caller with role "user" updating an existing task
assigned to them succeeds, and only the status field can change: title,
description, assigned_to and deadline of the stored task keep their old
values whatever the payload carried, while status becomes the payload
status when present. -/
theorem user_update_own_task_status_only (db : DB) (tid : String) (td : TaskUpdate)
    (caller : User) (now : Nat) (task : Task)
    (hrole : caller.role = "user")
    (hfind : db.tasks.find? (fun t => t.id == tid) = some task)
    (hown : task.assigned_to = caller.id) :
    ∃ db2 t2, update_task db tid td caller now = (db2, .ok t2) ∧
      db2.tasks.find? (fun t => t.id == tid) = some t2 ∧
      t2.title = task.title ∧ t2.description = task.description ∧
      t2.assigned_to = task.assigned_to ∧ t2.deadline = task.deadline ∧
      t2.assigned_by = task.assigned_by ∧ t2.created_at = task.created_at ∧
      t2.status = td.status.getD task.status := by
  have hna : caller.role ≠ "admin" := by rw [hrole]; decide
  simp only [update_task, hfind]
  rw [if_neg (fun hc => hc.2 hown)]
  rw [if_pos hna]
  cases hs : td.status with
  | none =>
    have hne : (filterNonAdmin td).nonEmpty = false := by
      rw [filterNonAdmin_nonEmpty, hs]; rfl
    refine ⟨db, task, ?_, hfind, rfl, rfl, rfl, rfl, rfl, rfl, rfl⟩
    unfold applyIfNonEmpty
    rw [hne, if_neg (by simp)]
  | some s =>
    have hne : (filterNonAdmin td).nonEmpty = true := by
      rw [filterNonAdmin_nonEmpty, hs]; rfl
    refine ⟨{ db with tasks := replaceTask db.tasks tid (applyUpdate task (filterNonAdmin td) now) },
            applyUpdate task (filterNonAdmin td) now, ?_, ?_, rfl, rfl, rfl, rfl, rfl, rfl, ?_⟩
    · unfold applyIfNonEmpty
      rw [hne, if_pos rfl]
    · exact find_replaceTask db.tasks tid task _ hfind rfl
    · simp [applyUpdate, filterNonAdmin, hs]

/-- C1 witness: `alice` updates her own task with a payload carrying both
a new status and a title; the update succeeds with only status changed. -/
theorem user_update_own_task_status_only_witness :
    ∃ db2 t2, update_task db0 "t1" tdStatusTitle alice 9 = (db2, .ok t2) ∧
      db2.tasks.find? (fun t => t.id == "t1") = some t2 ∧
      t2.title = taskA.title ∧ t2.description = taskA.description ∧
      t2.assigned_to = taskA.assigned_to ∧ t2.deadline = taskA.deadline ∧
      t2.assigned_by = taskA.assigned_by ∧ t2.created_at = taskA.created_at ∧
      t2.status = tdStatusTitle.status.getD taskA.status :=
  user_update_own_task_status_only db0 "t1" tdStatusTitle alice 9 taskA rfl rfl rfl

/-- C2: a caller whose role is not "admin" updating an existing task they
do not own gets 403 whatever the payload, and the returned store is the
input store: no task document, `updated_at` included, is modified. -/
theorem nonowner_update_forbidden (db : DB) (tid : String) (td : TaskUpdate)
    (caller : User) (now : Nat) (task : Task)
    (hrole : caller.role ≠ "admin")
    (hfind : db.tasks.find? (fun t => t.id == tid) = some task)
    (hown : task.assigned_to ≠ caller.id) :
    update_task db tid td caller now = (db, .error 403) := by
  simp only [update_task, hfind]
  rw [if_pos ⟨hrole, hown⟩]

/-- C2 witness: `bob` updating `alice`'s task is rejected with 403 and the
store is untouched. -/
theorem nonowner_update_forbidden_witness :
    update_task db0 "t1" tdStatusTitle bob 7 = (db0, .error 403) :=
  nonowner_update_forbidden db0 "t1" tdStatusTitle bob 7 taskA
    (by decide) rfl (by decide)

/-- C10: updating a task id absent from the store fails with 404 for every
caller, admin or not: the existence check runs before the ownership check,
so the answer is never 403. -/
theorem update_missing_task_not_found (db : DB) (tid : String) (td : TaskUpdate)
    (caller : User) (now : Nat)
    (hfind : db.tasks.find? (fun t => t.id == tid) = none) :
    update_task db tid td caller now = (db, .error 404) := by
  simp only [update_task, hfind]

/-- C10 witness: the non-admin `bob` updating a nonexistent task id gets
404, not 403. -/
theorem update_missing_task_not_found_witness :
    update_task db0 "t9" tdStatusTitle bob 7 = (db0, .error 404) :=
  update_missing_task_not_found db0 "t9" tdStatusTitle bob 7 rfl

/-- C3 counterexample: a token issued without an explicit ttl at time 0
expires at 900 seconds (15 minutes), not at 1800 seconds (30 minutes) as
the claim states. -/
theorem default_ttl_counterexample :
    (create_access_token "u1" none 0).payload.exp = 0 + 15 * 60 ∧
    (create_access_token "u1" none 0).payload.exp ≠ 0 + 30 * 60 :=
  ⟨rfl, by decide⟩

/-- C3 amended: a token issued without an explicit ttl expires 15 minutes
after issuance (the hard-coded default of `create_access_token`); the
30-minute lifetime of `ACCESS_TOKEN_EXPIRE_MINUTES` only applies because
the login flow passes it explicitly. -/
theorem create_access_token_default_ttl (sub : String) (now : Nat) :
    (create_access_token sub none now).payload.exp = now + 15 * 60 ∧
    (create_access_token sub (some (ACCESS_TOKEN_EXPIRE_MINUTES * 60)) now).payload.exp
      = now + 30 * 60 :=
  ⟨rfl, rfl⟩

/-- Success cases of `applyIfNonEmpty` stamp `updated_at` with now exactly
when the filtered payload is nonempty. -/
theorem applyIfNonEmpty_updated_at (db : DB) (tid : String) (task : Task)
    (ud : TaskUpdate) (now : Nat) (db2 : DB) (t2 : Task)
    (h : applyIfNonEmpty db tid task ud now = (db2, .ok t2)) :
    t2.updated_at = if ud.nonEmpty then now else task.updated_at := by
  rcases applyIfNonEmpty_ok db tid task ud now db2 t2 h with ⟨hne, ht, _⟩ | ⟨hne, ht, _⟩
  · rw [ht, hne, if_pos rfl]; rfl
  · rw [ht, hne, if_neg (by simp)]

/-- C4 counterexample: `alice` updates her own task setting status to the
value it already holds; no field value changes, yet `updated_at` is
refreshed from 0 to 5 — refuting the claim that such an update leaves
`updated_at` alone. -/
theorem updated_at_refresh_counterexample :
    (update_task db0 "t1" tdSameStatus alice 5).2 = .ok { taskA with updated_at := 5 } ∧
    ({ taskA with updated_at := 5 }).status = taskA.status ∧
    ({ taskA with updated_at := 5 }).updated_at ≠ taskA.updated_at :=
  ⟨rfl, rfl, by decide⟩

/-- C4 amended: on every task update that succeeds, `updated_at` is
refreshed to the current time if and only if the permission-filtered
payload is nonempty (at least one field survived the filtering), whether
or not the assigned values differ from the stored ones; an update whose
filtered payload is empty leaves `updated_at` at its old value. -/
theorem updated_at_refresh_rule (db : DB) (tid : String) (td : TaskUpdate)
    (caller : User) (now : Nat) (task : Task) (db2 : DB) (t2 : Task)
    (hfind : db.tasks.find? (fun t => t.id == tid) = some task)
    (hok : update_task db tid td caller now = (db2, .ok t2)) :
    t2.updated_at = if (effectiveUpdate caller td).nonEmpty then now else task.updated_at := by
  simp only [update_task, hfind] at hok
  by_cases hadm : caller.role = "admin"
  · rw [if_neg (fun hc => hc.1 hadm)] at hok
    rw [if_neg (fun hc => hc hadm)] at hok
    have heff : effectiveUpdate caller td = td := by
      simp [effectiveUpdate, hadm]
    rw [heff]
    cases hta : td.assigned_to with
    | some uid =>
      simp only [hta] at hok
      cases hu : (db.users.find? (fun u => u.id == uid)).isSome with
      | true =>
        rw [hu, if_pos rfl] at hok
        exact applyIfNonEmpty_updated_at db tid task td now db2 t2 hok
      | false =>
        rw [hu, if_neg (by simp)] at hok
        exact absurd (congrArg Prod.snd hok) (by simp)
    | none =>
      simp only [hta] at hok
      exact applyIfNonEmpty_updated_at db tid task td now db2 t2 hok
  · have heff : effectiveUpdate caller td = filterNonAdmin td := by
      simp [effectiveUpdate, hadm]
    rw [heff]
    by_cases hown : task.assigned_to = caller.id
    · rw [if_neg (fun hc => hc.2 hown)] at hok
      rw [if_pos hadm] at hok
      exact applyIfNonEmpty_updated_at db tid task (filterNonAdmin td) now db2 t2 hok
    · rw [if_pos ⟨hadm, hown⟩] at hok
      exact absurd (congrArg Prod.snd hok) (by simp)

/-- C4 amended witness: the same concrete update as the counterexample,
seen through the amended rule: the filtered payload is nonempty, so
`updated_at` becomes 5. -/
theorem updated_at_refresh_rule_witness :
    ({ taskA with updated_at := 5 }).updated_at =
      if (effectiveUpdate alice tdSameStatus).nonEmpty then 5 else taskA.updated_at :=
  updated_at_refresh_rule db0 "t1" tdSameStatus alice 5 taskA
    { db0 with tasks := [{ taskA with updated_at := 5 }, taskB] }
    { taskA with updated_at := 5 } rfl rfl

/-- Resolution succeeds for any well-signed unexpired token whose subject
is in the store, with no condition at all on the stored user's fields. -/
theorem get_current_user_ok (db : DB) (tok : JWT) (now : Nat) (uid : String) (user : User)
    (hkey : tok.key = SECRET_KEY)
    (hsub : tok.payload.sub = some uid)
    (hexp : now < tok.payload.exp)
    (hfind : db.users.find? (fun u => u.id == uid) = some user) :
    get_current_user db tok now = .ok user := by
  simp only [get_current_user, jwt_decode]
  rw [if_pos (by rw [hkey]; simp [hexp])]
  simp only [hsub, hfind]

/-- C5: resolving the caller from a well-signed, unexpired token whose
subject exists in the user store succeeds even when that user's is_active
flag is false; `get_current_user` never consults `is_active`. -/
theorem resolve_ignores_is_active (db : DB) (tok : JWT) (now : Nat) (uid : String) (user : User)
    (hkey : tok.key = SECRET_KEY)
    (hsub : tok.payload.sub = some uid)
    (hexp : now < tok.payload.exp)
    (hfind : db.users.find? (fun u => u.id == uid) = some user)
    (_hinactive : user.is_active = false) :
    get_current_user db tok now = .ok user :=
  get_current_user_ok db tok now uid user hkey hsub hexp hfind

/-- C5 witness: a token for the deactivated `carol`, used well before its
expiry, still resolves to `carol`. -/
theorem resolve_ignores_is_active_witness :
    get_current_user db0 (create_access_token "u3" (some 600) 0) 100 = .ok carol :=
  resolve_ignores_is_active db0 (create_access_token "u3" (some 600) 0) 100 "u3" carol
    rfl rfl (by decide) rfl rfl

/-- C6: task listing is role-scoped: an admin gets the whole collection
(through the fixed 1000-document fetch cap); any other caller sees only
tasks assigned to them — never a task assigned to someone else — and,
within the cap, all of them. -/
theorem get_tasks_role_scope (db : DB) (caller : User) :
    (caller.role = "admin" → get_tasks db caller = db.tasks.take 1000) ∧
    (caller.role ≠ "admin" →
      (∀ t ∈ get_tasks db caller, t.assigned_to = caller.id) ∧
      (db.tasks.length ≤ 1000 →
        get_tasks db caller = db.tasks.filter (fun t => t.assigned_to == caller.id))) := by
  constructor
  · intro h
    simp [get_tasks, h]
  · intro h
    have hb : (caller.role == "admin") = false := by
      simp [h]
    constructor
    · intro t ht
      simp only [get_tasks, hb, Bool.false_eq_true, if_false] at ht
      have hmem := List.mem_of_mem_take ht
      exact eq_of_beq (List.mem_filter.mp hmem).2
    · intro hlen
      simp only [get_tasks, hb, Bool.false_eq_true, if_false]
      exact List.take_of_length_le (le_trans (List.length_filter_le _ _) hlen)

/-- C6 witness: on the fixture store, the admin sees both tasks and `bob`
sees exactly the tasks assigned to him. -/
theorem get_tasks_role_scope_witness :
    get_tasks db0 adminUser = db0.tasks.take 1000 ∧
    get_tasks db0 bob = db0.tasks.filter (fun t => t.assigned_to == bob.id) :=
  ⟨(get_tasks_role_scope db0 adminUser).1 rfl,
   ((get_tasks_role_scope db0 bob).2 (by decide)).2 (by decide)⟩

/-- C7: logging in as an active stored user with the password whose hash
is on file succeeds, and the issued token resolves back to that same user
at any instant before its expiry; a password failing verification, or an
inactive account with the right password, makes login fail with 401. -/
theorem login_roundtrip (db : DB) (uname p : String) (u : User) (now : Nat)
    (hfind : db.users.find? (fun x => x.username == uname) = some u) :
    (u.hashed_password = get_password_hash p → u.is_active = true →
      db.users.find? (fun x => x.id == u.id) = some u →
      login db uname p now =
        .ok (create_access_token u.id (some (ACCESS_TOKEN_EXPIRE_MINUTES * 60)) now, u) ∧
      (∀ n2, n2 < now + ACCESS_TOKEN_EXPIRE_MINUTES * 60 →
        get_current_user db
          (create_access_token u.id (some (ACCESS_TOKEN_EXPIRE_MINUTES * 60)) now) n2 = .ok u)) ∧
    (verify_password p u.hashed_password = false → login db uname p now = .error 401) ∧
    (u.hashed_password = get_password_hash p → u.is_active = false →
      login db uname p now = .error 401) := by
  refine ⟨?_, ?_, ?_⟩
  · intro hpw hact hfid
    have hv : verify_password p u.hashed_password = true := by
      simp [verify_password, hpw]
    constructor
    · simp [login, hfind, hv, hact]
    · intro n2 hn2
      exact get_current_user_ok db _ n2 u.id u rfl rfl hn2 hfid
  · intro hv
    simp [login, hfind, hv]
  · intro hpw hinact
    have hv : verify_password p u.hashed_password = true := by
      simp [verify_password, hpw]
    simp [login, hfind, hv, hinact]

/-- C7 witness: `alice` logs in with her password and the token resolves
back to her before expiry; a wrong password fails, and the deactivated
`carol` fails even with the right password. -/
theorem login_roundtrip_witness :
    login db0 "alice" "pw1" 50 =
      .ok (create_access_token alice.id (some (ACCESS_TOKEN_EXPIRE_MINUTES * 60)) 50, alice) ∧
    get_current_user db0
      (create_access_token alice.id (some (ACCESS_TOKEN_EXPIRE_MINUTES * 60)) 50) 100 = .ok alice ∧
    login db0 "alice" "wrong" 50 = .error 401 ∧
    login db0 "carol" "pw4" 50 = .error 401 :=
  ⟨((login_roundtrip db0 "alice" "pw1" alice 50 rfl).1 rfl rfl rfl).1,
   ((login_roundtrip db0 "alice" "pw1" alice 50 rfl).1 rfl rfl rfl).2 100 (by decide),
   (login_roundtrip db0 "alice" "wrong" alice 50 rfl).2.1 (by decide),
   (login_roundtrip db0 "carol" "pw4" carol 50 rfl).2.2 rfl rfl⟩

/-- C8: seeding is gated on an existing admin: when some user with role
"admin" is present the store is returned untouched; when none is, exactly
the fixed admin document is appended; and running the step twice equals
running it once, so a second startup never duplicates the seed. -/
theorem create_admin_user_idempotent (db : DB) (fid : String) (now : Nat) :
    ((db.users.find? (fun u => u.role == "admin")).isSome = true →
        create_admin_user db fid now = db) ∧
    ((db.users.find? (fun u => u.role == "admin")).isSome = false →
        (create_admin_user db fid now).users = db.users ++ [seedAdmin fid now] ∧
        (create_admin_user db fid now).tasks = db.tasks) ∧
    (∀ fid2 now2, create_admin_user (create_admin_user db fid now) fid2 now2 =
        create_admin_user db fid now) := by
  cases hf : db.users.find? (fun u => u.role == "admin") with
  | some a =>
    refine ⟨fun _ => ?_, fun h => ?_, fun fid2 now2 => ?_⟩
    · simp only [create_admin_user, hf]
    · simp at h
    · simp only [create_admin_user, hf]
  | none =>
    refine ⟨fun h => ?_, fun _ => ?_, fun fid2 now2 => ?_⟩
    · simp at h
    · exact ⟨by simp only [create_admin_user, hf], by simp only [create_admin_user, hf]⟩
    · have hseed : ((db.users ++ [seedAdmin fid now]).find? (fun u => u.role == "admin"))
          = some (seedAdmin fid now) := by
        rw [List.find?_append, hf]
        rfl
      simp only [create_admin_user, hf, hseed]

/-- C8 witness: on a store that already has an admin the step is the
identity; on one with none it appends the seed, and a second run changes
nothing. -/
theorem create_admin_user_idempotent_witness :
    create_admin_user db0 "f1" 3 = db0 ∧
    (create_admin_user dbNoAdmin "f1" 3).users = dbNoAdmin.users ++ [seedAdmin "f1" 3] ∧
    create_admin_user (create_admin_user dbNoAdmin "f1" 3) "f2" 4 =
      create_admin_user dbNoAdmin "f1" 3 :=
  ⟨(create_admin_user_idempotent db0 "f1" 3).1 rfl,
   ((create_admin_user_idempotent dbNoAdmin "f1" 3).2.1 rfl).1,
   (create_admin_user_idempotent dbNoAdmin "f1" 3).2.2 "f2" 4⟩

/-- C9: registration is open and honors the caller-supplied role: with a
fresh username and email and role "admin" in the payload, an active user
with role "admin" is inserted and returned — `register` takes no token and
performs no authorization check at all. -/
theorem register_honors_admin_role (db : DB) (ud : UserCreate) (fid : String) (now : Nat)
    (hfree : db.users.find? (fun u => u.username == ud.username || u.email == ud.email) = none)
    (hrole : ud.role = "admin") :
    register db ud fid now =
      .ok ({ db with users := db.users ++ [mkUser ud fid now] }, mkUser ud fid now) ∧
    (mkUser ud fid now).role = "admin" ∧
    (mkUser ud fid now).is_active = true ∧
    (mkUser ud fid now).username = ud.username := by
  refine ⟨?_, hrole, rfl, rfl⟩
  simp only [register, hfree]

/-- C9 witness: registering the fresh "eve" with role "admin" on the
fixture store succeeds and yields an active admin account. -/
theorem register_honors_admin_role_witness :
    register db0 newAdminReq "u9" 8 =
      .ok ({ db0 with users := db0.users ++ [mkUser newAdminReq "u9" 8] },
           mkUser newAdminReq "u9" 8) ∧
    (mkUser newAdminReq "u9" 8).role = "admin" ∧
    (mkUser newAdminReq "u9" 8).is_active = true ∧
    (mkUser newAdminReq "u9" 8).username = newAdminReq.username :=
  register_honors_admin_role db0 newAdminReq "u9" 8 rfl rfl

end TaskApp
